import Mathlib

/-!
Verification of the pyTMD tide-correction drivers
(`scripts/compute_tides_icebridge_data.py` and
`scripts/compute_tides_ICESat2_ATL11.py`) against their natural-language
specification.  Numeric values that may be IEEE NaN are modelled as
`Option ℚ`, with `none` standing for NaN; masked arrays are modelled as
lists of value/mask pairs.
-/

/-- NaN-propagating addition on possibly-NaN values (`none` models IEEE NaN:
any arithmetic with NaN yields NaN). -/
def nanAdd : Option ℚ → Option ℚ → Option ℚ
  | some a, some b => some (a + b)
  | _, _ => none

/-- Models `compute_tides_icebridge_data` lines 866 to 875.  Each row of the
input carries the constituent-extraction mask row for that point
(`hc.mask[i,:]`), the value returned by `predict_tide_drift` and the value
returned by `infer_minor_corrections` at that point.  The code sets
`tide.mask = np.any(hc.mask, axis=1)`, sums the two predictions into
`tide.data`, and finally overwrites `tide.data[tide.mask]` with the fill
value.  No NaN handling is performed on unmasked entries. -/
def icebridgeTidePost (fv : ℚ)
    (rows : List (List Bool × Option ℚ × Option ℚ)) : List (Option ℚ × Bool) :=
  rows.map (fun r =>
    let m := r.1.any id
    let d := nanAdd r.2.1 r.2.2
    (if m then some fv else d, m))

/-- Models `compute_tides_ICESat2` lines 626 to 629: after the per-track tide
computation, `invalid = np.nonzero(np.isnan(tide.data) | tide.mask)` and both
`tide.data[invalid] = fill_value` and `tide.mask[invalid] = True` are set. -/
def atl11FoldInvalid (fv : ℚ)
    (tide : List (Option ℚ × Bool)) : List (Option ℚ × Bool) :=
  tide.map (fun e => if e.1.isNone || e.2 then (some fv, true) else e)

/-- Hemisphere election in `read_ATM_qfit_file` lines 256 to 263:
`count['N'] = np.count_nonzero(lat >= 0.0)`, `count['S'] =
np.count_nonzero(lat < 0.0)`, then `HEM, = [key for key, val in
count.items() if val]`.  The single-element tuple unpacking succeeds only
when exactly one hemisphere has a nonzero count; `none` models the
`ValueError` raised otherwise (mixed-sign or empty input). -/
def qfitHemisphere (lats : List ℚ) : Option String :=
  let countN := (lats.filter (fun x => decide (0 ≤ x))).length
  let countS := (lats.filter (fun x => decide (x < 0))).length
  let keys := (if countN ≠ 0 then ["N"] else []) ++
    (if countS ≠ 0 then ["S"] else [])
  match keys with
  | [k] => some k
  | _ => none

/-- Hemisphere election in `read_ATM_icessn_file` lines 326 to 333; the body
is textually identical to the one in `read_ATM_qfit_file`. -/
def icessnHemisphere (lats : List ℚ) : Option String :=
  let countN := (lats.filter (fun x => decide (0 ≤ x))).length
  let countS := (lats.filter (fun x => decide (x < 0))).length
  let keys := (if countN ≠ 0 then ["N"] else []) ++
    (if countS ≠ 0 then ["S"] else [])
  match keys with
  | [k] => some k
  | _ => none

/-- Region-code lookup in `read_LVIS_HDF5_file` lines 337 and 422:
`lvis_flag = {'GL':'N','AQ':'S'}` indexed by the REGION filename token;
`none` models the `KeyError` on any other region code. -/
def lvisHemisphere (region : String) : Option String :=
  if region = "GL" then some "N"
  else if region = "AQ" then some "S"
  else none

/-- Two-digit year pivot in `read_ATM_qfit_file` line 161:
`year = (ypre + 1900.0) if (ypre >= 90) else (ypre + 2000.0)`. -/
def qfitResolveYear (ypre : ℕ) : ℕ :=
  if 90 ≤ ypre then 1900 + ypre else 2000 + ypre

/-- Two-digit year pivot in `read_ATM_icessn_file` line 274, textually
identical to the one in `read_ATM_qfit_file`. -/
def icessnResolveYear (ypre : ℕ) : ℕ :=
  if 90 ≤ ypre then 1900 + ypre else 2000 + ypre

/-- Two-digit year pivot in the output-filename derivation of
`compute_tides_icebridge_data` lines 785 to 788, which formats the resolved
year with a 4-digit float format into the string YY1. -/
def outputNameResolveYY (ypre : ℕ) : String :=
  toString (if 90 ≤ ypre then 1900 + ypre else 2000 + ypre)

/-- Digit-string to natural number conversion, modelling `np.array(-, dtype='i')`
and `np.float64(-)` applied to a string of decimal digits. -/
def parseDigits (cs : List Char) : ℕ :=
  cs.foldl (fun n c => 10 * n + (c.toNat - '0'.toNat)) 0

/-- Parses a decimal-digit string as a natural number. -/
def parseNatStr (s : String) : ℕ :=
  parseDigits s.toList

/-- The YYMMDD token handling shared by `read_ATM_qfit_file` lines 158 to 163
and `read_ATM_icessn_file` lines 271 to 276: a 6-character token is sliced at
positions 2 and 4 and the two-digit year prefix resolved by the pivot, an
8-character token is sliced at positions 4 and 6 with the year taken as is;
any other length leaves the year unbound (`none`, a NameError downstream). -/
def parseYYMMDD (s : String) : Option (ℕ × ℕ × ℕ) :=
  if s.length = 6 then
    some (qfitResolveYear (parseNatStr (s.take 2)),
      parseNatStr ((s.drop 2).take 2), parseNatStr (s.drop 4))
  else if s.length = 8 then
    some (parseNatStr (s.take 4),
      parseNatStr ((s.drop 4).take 2), parseNatStr (s.drop 6))
  else none

/-- C1: the claim states that output equals the sentinel if and only if the
mask is set, and that no non-masked slot ever holds NaN.  Counterexample on
the airborne driver at concrete inputs: a point whose computed tide happens
to equal the fill value -9999.0 while its mask is clear is written as the
sentinel with the mask clear (the iff fails right to left), and a NaN
prediction at an unmasked point is written out as NaN because
`compute_tides_icebridge_data` never folds NaN into the mask; the
repeat-track fold also keeps a coincidental fill value unmasked. -/
theorem c1_counterexample :
    icebridgeTidePost (-9999) [([false], some (-9999), some 0)]
        = [(some (-9999), false)] ∧
    icebridgeTidePost (-9999) [([false], none, some 0)] = [(none, false)] ∧
    atl11FoldInvalid (-9999) [(some (-9999), false)]
        = [(some (-9999), false)] := by
  refine ⟨?_, ?_, ?_⟩ <;> simp [icebridgeTidePost, atl11FoldInvalid, nanAdd]

/-- C1 (amended): in both drivers every masked position is written as the
declared sentinel; in the repeat-track driver the final fold additionally
turns every NaN into the sentinel with the mask set, so no non-masked output
slot holds NaN there.  The converse implication (sentinel implies masked)
does not hold, and the airborne driver performs no NaN fold. -/
theorem c1_theorem (fv : ℚ) (rows : List (List Bool × Option ℚ × Option ℚ))
    (tide : List (Option ℚ × Bool)) :
    (∀ e ∈ icebridgeTidePost fv rows, e.2 = true → e.1 = some fv) ∧
    (∀ e ∈ atl11FoldInvalid fv tide,
      (e.2 = true → e.1 = some fv) ∧ (e.2 = false → e.1 ≠ none)) := by
  constructor
  · intro e he hm
    simp only [icebridgeTidePost, List.mem_map] at he
    obtain ⟨r, _, hr⟩ := he
    by_cases h : r.1.any id
    · simp only [h, if_pos] at hr
      rw [← hr]
    · simp only [h, if_neg, Bool.false_eq_true, not_false_eq_true] at hr
      rw [← hr] at hm
      simp at hm
  · intro e he
    simp only [atl11FoldInvalid, List.mem_map] at he
    obtain ⟨x, _, hx⟩ := he
    by_cases h : x.1.isNone || x.2
    · simp [h] at hx
      constructor
      · intro _; exact hx ▸ rfl
      · intro hf; rw [← hx] at hf; simp at hf
    · simp [h] at hx
      simp only [Bool.or_eq_true, not_or] at h
      constructor
      · intro hm; rw [← hx] at hm; exact absurd hm (by exact h.2)
      · intro _; rw [← hx]; simpa [Option.isNone_iff_eq_none] using h.1

/-- C1 witness: the amended theorem applied to concrete inputs. -/
theorem c1_witness :
    (∀ e ∈ icebridgeTidePost 5 [([true], some 1, some 2)],
      e.2 = true → e.1 = some 5) ∧
    (∀ e ∈ atl11FoldInvalid 5 [(none, false), (some 3, false)],
      (e.2 = true → e.1 = some 5) ∧ (e.2 = false → e.1 ≠ none)) :=
  c1_theorem 5 [([true], some 1, some 2)] [(none, false), (some 3, false)]

/-- C8: the claim states the ATM hemisphere is the majority latitude sign.
Counterexample at a concrete input holding both signs (one non-negative,
two negative latitudes): the claim requires hemisphere S, but the code's
single-element tuple unpacking raises a ValueError (modelled as `none`)
because both hemisphere counts are nonzero. -/
theorem c8_counterexample :
    qfitHemisphere [1, -1, -2] = none ∧
    icessnHemisphere [1, -1, -2] = none ∧
    qfitHemisphere [1, -1, -2] ≠ some "S" := by
  refine ⟨by decide, by decide, by decide⟩

/-- C8 (amended): the ATM adapters derive the hemisphere from the unanimous
latitude sign: N when every latitude is non-negative, S when every latitude
is negative (nonempty input); when both signs occur, or the input is empty,
the single-element unpacking fails.  The LVIS adapter maps filename region
code GL to N and AQ to S and fails on any other code. -/
theorem c8_theorem (lats : List ℚ) (r : String) :
    (lats ≠ [] → (∀ x ∈ lats, 0 ≤ x) → qfitHemisphere lats = some "N") ∧
    (lats ≠ [] → (∀ x ∈ lats, x < 0) → qfitHemisphere lats = some "S") ∧
    ((∃ x ∈ lats, 0 ≤ x) → (∃ x ∈ lats, x < 0) → qfitHemisphere lats = none) ∧
    icessnHemisphere lats = qfitHemisphere lats ∧
    lvisHemisphere "GL" = some "N" ∧ lvisHemisphere "AQ" = some "S" ∧
    (r ≠ "GL" → r ≠ "AQ" → lvisHemisphere r = none) := by
  refine ⟨?_, ?_, ?_, rfl, rfl, rfl, ?_⟩
  · intro hne hall
    have hN : lats.filter (fun x => decide (0 ≤ x)) = lats :=
      List.filter_eq_self.mpr (fun a ha => by simpa using hall a ha)
    have hS : lats.filter (fun x => decide (x < 0)) = [] :=
      List.filter_eq_nil_iff.mpr (fun a ha => by simpa using not_lt.mpr (hall a ha))
    simp only [qfitHemisphere, hN, hS, List.length_nil]
    have : lats.length ≠ 0 := by simpa [List.length_eq_zero] using hne
    simp [this]
  · intro hne hall
    have hS : lats.filter (fun x => decide (x < 0)) = lats :=
      List.filter_eq_self.mpr (fun a ha => by simpa using hall a ha)
    have hN : lats.filter (fun x => decide (0 ≤ x)) = [] :=
      List.filter_eq_nil_iff.mpr (fun a ha => by simpa using not_le.mpr (hall a ha))
    simp only [qfitHemisphere, hN, hS, List.length_nil]
    have : lats.length ≠ 0 := by simpa [List.length_eq_zero] using hne
    simp [this]
  · rintro ⟨a, ha, ha0⟩ ⟨b, hb, hb0⟩
    have hN : (lats.filter (fun x => decide (0 ≤ x))).length ≠ 0 := by
      simp only [ne_eq, List.length_eq_zero, List.filter_eq_nil_iff]
      push_neg
      exact ⟨a, ha, by simpa using ha0⟩
    have hS : (lats.filter (fun x => decide (x < 0))).length ≠ 0 := by
      simp only [ne_eq, List.length_eq_zero, List.filter_eq_nil_iff]
      push_neg
      exact ⟨b, hb, by simpa using hb0⟩
    simp [qfitHemisphere, hN, hS]
  · intro h1 h2
    simp [lvisHemisphere, h1, h2]

/-- C8 witness: the amended theorem applied to concrete inputs. -/
theorem c8_witness :
    ([(3 : ℚ), 4] ≠ [] → (∀ x ∈ [(3 : ℚ), 4], 0 ≤ x) →
      qfitHemisphere [3, 4] = some "N") ∧
    ([(3 : ℚ), 4] ≠ [] → (∀ x ∈ [(3 : ℚ), 4], x < 0) →
      qfitHemisphere [3, 4] = some "S") ∧
    ((∃ x ∈ [(3 : ℚ), 4], 0 ≤ x) → (∃ x ∈ [(3 : ℚ), 4], x < 0) →
      qfitHemisphere [3, 4] = none) ∧
    icessnHemisphere [3, 4] = qfitHemisphere [3, 4] ∧
    lvisHemisphere "GL" = some "N" ∧ lvisHemisphere "AQ" = some "S" ∧
    ("ZZ" ≠ "GL" → "ZZ" ≠ "AQ" → lvisHemisphere "ZZ" = none) :=
  c8_theorem [3, 4] "ZZ"

/-- C10: the two-digit year prefix of a 6-digit YYMMDD token is resolved with
the fixed pivot 90 (at least 90 means the 1900s, below 90 means the 2000s),
and the three occurrences (QFIT adapter, icessn adapter, output-filename
derivation) implement the same pivot; the 6-character token is sliced at
positions 2 and 4. -/
theorem c10_theorem (y : ℕ) (s : String) (h6 : s.length = 6) :
    qfitResolveYear y = icessnResolveYear y ∧
    outputNameResolveYY y = toString (qfitResolveYear y) ∧
    (90 ≤ y → qfitResolveYear y = 1900 + y) ∧
    (y < 90 → qfitResolveYear y = 2000 + y) ∧
    parseYYMMDD s = some (qfitResolveYear (parseNatStr (s.take 2)),
      parseNatStr ((s.drop 2).take 2), parseNatStr (s.drop 4)) := by
  refine ⟨rfl, rfl, fun h => by simp [qfitResolveYear, h],
    fun h => by simp [qfitResolveYear, Nat.not_le.mpr h], ?_⟩
  simp [parseYYMMDD, h6]

/-- C10 witness: the pivot at 93 (resolving to 1993) and the token slicing
at the concrete 6-digit token 930115. -/
theorem c10_witness :
    qfitResolveYear 93 = icessnResolveYear 93 ∧
    outputNameResolveYY 93 = toString (qfitResolveYear 93) ∧
    (90 ≤ 93 → qfitResolveYear 93 = 1900 + 93) ∧
    (93 < 90 → qfitResolveYear 93 = 2000 + 93) ∧
    parseYYMMDD "930115" = some (qfitResolveYear (parseNatStr ("930115".take 2)),
      parseNatStr (("930115".drop 2).take 2), parseNatStr ("930115".drop 4)) :=
  c10_theorem 93 "930115" (by decide)

/-- One LVIS waveform record as consumed by the combining step of
`read_LVIS_HDF5_file`: the low and high waveform elevations, the centroid
elevation `elev` (read directly from the file for LDS 1.04, or computed as
`elev_low + RH50` for LDS 2.0.2), and the low and centroid geolocations. -/
structure LVISRecord where
  elev_low : ℚ
  elev_high : ℚ
  elev : ℚ
  lat_low : ℚ
  lon_low : ℚ
  lat : ℚ
  lon : ℚ

/-- Models `read_LVIS_HDF5_file` lines 394 to 412: where the lowest point of
the waveform equals the highest point the adapter uses the low elevation and
low geolocation directly, otherwise the centroid elevation and geolocation.
Returns the (data, lon, lat) triple. -/
def lvisCombine (r : LVISRecord) : ℚ × ℚ × ℚ :=
  if r.elev_low = r.elev_high then (r.elev_low, r.lon_low, r.lat_low)
  else (r.elev, r.lon, r.lat)

/-- Models `read_LVIS_HDF5_file` lines 413 to 416: the squared deviations of
the low and high elevations from the centroid elevation, averaged.  Note
that the deviations are taken from the file centroid `elev`, not from the
combined output value. -/
def lvisErrorSq (r : LVISRecord) : ℚ :=
  ((r.elev_low - r.elev) ^ 2 + (r.elev_high - r.elev) ^ 2) / 2

/-- Models `read_LVIS_HDF5_file` line 416: the per-point uncertainty is the
square root of the averaged squared deviations. -/
noncomputable def lvisError (r : LVISRecord) : ℝ :=
  Real.sqrt ((lvisErrorSq r : ℚ) : ℝ)

/-- C3: the claim states that a degenerate record with
`elev_low = elev_high = 100.0` yields data value 100.0 and uncertainty
exactly 0.0.  Counterexample at a concrete record (an LDS 1.04 file whose
`Elevation_Centroid` is 103.0 while both waveform elevations are 100.0):
the data value is 100.0 as claimed, but the uncertainty is 3.0, because the
code measures the deviation of the low/high elevations from the file
centroid, which need not equal the common elevation. -/
theorem c3_counterexample :
    (lvisCombine ⟨100, 100, 103, 1, 2, 3, 4⟩ = (100, 2, 1)) ∧
    lvisError ⟨100, 100, 103, 1, 2, 3, 4⟩ = 3 ∧
    lvisError ⟨100, 100, 103, 1, 2, 3, 4⟩ ≠ 0 := by
  have hsq : lvisErrorSq ⟨100, 100, 103, 1, 2, 3, 4⟩ = 9 := by norm_num [lvisErrorSq]
  have h3 : lvisError ⟨100, 100, 103, 1, 2, 3, 4⟩ = 3 := by
    rw [lvisError, hsq]
    rw [show ((9 : ℚ) : ℝ) = 3 ^ 2 by norm_num]
    exact Real.sqrt_sq (by norm_num)
  exact ⟨by norm_num [lvisCombine], h3, by rw [h3]; norm_num⟩

/-- C3 (amended): for every record where the low elevation equals the high
elevation, the adapter returns the low elevation directly as the data value
(bypassing the centroid/ratio formulation) together with the low
geolocation, and the per-point uncertainty equals the absolute deviation of
that common elevation from the file centroid elevation; in particular the
uncertainty is exactly 0.0 when the centroid elevation also equals the
common value. -/
theorem c3_theorem (r : LVISRecord) (heq : r.elev_low = r.elev_high) :
    lvisCombine r = (r.elev_low, r.lon_low, r.lat_low) ∧
    lvisError r = |((r.elev_low - r.elev : ℚ) : ℝ)| ∧
    (r.elev = r.elev_low → lvisError r = 0) := by
  have hsq : lvisErrorSq r = (r.elev_low - r.elev) ^ 2 := by
    rw [lvisErrorSq, ← heq]; ring
  have herr : lvisError r = |((r.elev_low - r.elev : ℚ) : ℝ)| := by
    rw [lvisError, hsq]
    push_cast
    exact Real.sqrt_sq_eq_abs _
  refine ⟨by simp [lvisCombine, heq], herr, fun hc => ?_⟩
  rw [herr, hc]
  simp

/-- C3 witness: the amended theorem at the fully degenerate record where the
centroid elevation also equals both waveform elevations. -/
theorem c3_witness :
    lvisCombine ⟨100, 100, 100, 1, 2, 3, 4⟩ = (100, 2, 1) ∧
    lvisError ⟨100, 100, 100, 1, 2, 3, 4⟩ = |(((100 : ℚ) - 100 : ℚ) : ℝ)| ∧
    ((100 : ℚ) = 100 → lvisError ⟨100, 100, 100, 1, 2, 3, 4⟩ = 0) :=
  c3_theorem ⟨100, 100, 100, 1, 2, 3, 4⟩ rfl

/-- Decimal digit characters of a natural number, most significant first;
`fuel` bounds the recursion depth. -/
def natDigitsAux : ℕ → ℕ → List Char
  | 0, _ => []
  | fuel + 1, n =>
    if n = 0 then []
    else natDigitsAux fuel (n / 10) ++ [Char.ofNat ('0'.toNat + n % 10)]

/-- Decimal rendering of a natural number; the fuel 40 suffices for any
value below 10 to the 40th power, far beyond the width-10 fixed format
being modelled. -/
def natDigits (n : ℕ) : List Char :=
  if n = 0 then ['0'] else natDigitsAux 40 n

/-- Left-pads a character list with zeros to the given width. -/
def padZeroLeft (w : ℕ) (cs : List Char) : List Char :=
  List.replicate (w - cs.length) '0' ++ cs

/-- Models the Python format `'{0:010.3f}'.format(packed_time)` applied to a
non-negative packed time value (`read_ATM_qfit_file` line 213): the value is
rounded to three decimal places and rendered zero-padded to total width 10
with three digits after the decimal point. -/
def fmt010p3 (q : ℚ) : String :=
  let m : ℕ := (round (q * 1000) : ℤ).toNat
  let ip := natDigits (m / 1000)
  let fp := padZeroLeft 3 (natDigits (m % 1000))
  ⟨padZeroLeft 10 (ip ++ '.' :: fp)⟩

/-- Parses a decimal string (digits, optionally a dot and digits) into an
exact rational, modelling `np.float64` applied to these slices. -/
def parseDecStr (cs : List Char) : ℚ :=
  let ip := cs.takeWhile (fun c => c != '.')
  let rest := cs.dropWhile (fun c => c != '.')
  match rest with
  | [] => (parseDigits ip : ℚ)
  | _ :: fp => (parseDigits ip : ℚ) + (parseDigits fp : ℚ) / (10 : ℚ) ^ fp.length

/-- Models `read_ATM_qfit_file` lines 214 to 216: the fixed-width rendering
is sliced at character positions 0:2, 2:4 and 4:, and each slice parsed as a
number, giving hour, minute and second. -/
def decodePackedTime (s : String) : ℚ × ℚ × ℚ :=
  let cs := s.toList
  ((parseDigits (cs.take 2) : ℚ), (parseDigits ((cs.drop 2).take 2) : ℚ),
    parseDecStr (cs.drop 4))

/-- The packed-binary time path of `read_ATM_qfit_file` lines 211 to 216:
format the packed float to fixed width, then decode by string slicing. -/
def qfitPackedHMS (packed : ℚ) : ℚ × ℚ × ℚ :=
  decodePackedTime (fmt010p3 packed)

/-- C4: every packed time field whose zero-padded fixed-width rendering is
the string 120000.500 decodes to hour 12, minute 0 and second 0.5 exactly,
by slicing the rendering at character positions 0:2, 2:4 and 4:. -/
theorem c4_theorem (q : ℚ) (h : fmt010p3 q = "120000.500") :
    qfitPackedHMS q = (12, 0, 1 / 2) := by
  rw [qfitPackedHMS, h]
  have h1 : parseDigits ("120000.500".toList.take 2) = 12 := by decide
  have h2 : parseDigits (("120000.500".toList.drop 2).take 2) = 0 := by decide
  have e1 : ("120000.500".toList.drop 4).takeWhile (fun c => c != '.')
      = ['0', '0'] := by decide
  have e2 : ("120000.500".toList.drop 4).dropWhile (fun c => c != '.')
      = ['.', '5', '0', '0'] := by decide
  have e3 : parseDigits ['0', '0'] = 0 := by decide
  have e4 : parseDigits ['5', '0', '0'] = 500 := by decide
  have h3 : parseDecStr ("120000.500".toList.drop 4) = 1 / 2 := by
    simp only [parseDecStr, e1, e2, e3, e4, List.length_cons, List.length_nil]
    norm_num
  simp only [decodePackedTime, h1, h2, h3]
  norm_num

/-- C4 witness: the packed value 120000.5 renders as 120000.500 and decodes
to hour 12, minute 0, second one half. -/
theorem c4_witness : qfitPackedHMS (240001 / 2) = (12, 0, 1 / 2) :=
  c4_theorem (240001 / 2) (by
    have h : (round ((240001 / 2 : ℚ) * 1000) : ℤ) = 120000500 := by
      norm_num [round_eq]
    simp only [fmt010p3, h]
    decide)

/-- Splits a driver argument into input-file part and optional bracketed
subsetter suffix, modelling the pattern match over the argument in
`compute_tides_icebridge_data` lines 430 and 431: with the lazy first group
and the end anchor, the bracket group captures from the first opening
bracket through the final closing bracket whenever the argument ends with a
closing bracket; otherwise the whole argument is the file name. -/
def splitSubsetterArg (arg : String) : String × Option String :=
  let cs := arg.toList
  if cs.getLast? = some ']' ∧ '[' ∈ cs then
    (⟨cs.takeWhile (fun c => c != '[')⟩,
      some ⟨((cs.dropWhile (fun c => c != '[')).drop 1).dropLast⟩)
  else (arg, none)

/-- Splits a character list at commas (helper for the subsetter grammar). -/
def splitCommaAux (cur : List Char) : List Char → List (List Char)
  | [] => [cur.reverse]
  | c :: rest =>
    if c = ',' then cur.reverse :: splitCommaAux [] rest
    else splitCommaAux (c :: cur) rest

/-- One token of the subsetter body, per the alternation in
`compute_tides_icebridge_data` line 436: a range a-b extends the index list
with `range(a, b+1)` (inclusive), a single number is appended as is. -/
def parseSubsetToken (cs : List Char) : List ℕ :=
  if '-' ∈ cs then
    let a := parseDigits (cs.takeWhile (fun c => c != '-'))
    let b := parseDigits ((cs.dropWhile (fun c => c != '-')).drop 1)
    List.range' a (b + 1 - a)
  else [parseDigits cs]

/-- Decompression of the subsetter body into an index list, modelling the
loop of `compute_tides_icebridge_data` lines 435 to 438. -/
def decompressSubsetter (inner : String) : List ℕ :=
  ((splitCommaAux [] inner.toList).map parseSubsetToken).flatten

/-- Zero-based element lookup in a list. -/
def listNth {α : Type} : List α → ℕ → Option α
  | [], _ => none
  | x :: _, 0 => some x
  | _ :: xs, n + 1 => listNth xs n

/-- Fancy indexing `val[input_subsetter]` as used by every adapter: gather
the records at the listed indices in order; `none` models the numpy
IndexError when an index is out of bounds. -/
def applySubset {α : Type} (xs : List α) : List ℕ → Option (List α)
  | [] => some []
  | i :: is =>
    match listNth xs i, applySubset xs is with
    | some v, some vs => some (v :: vs)
    | _, _ => none

/-- Elements of the first list all satisfy the predicate, so takeWhile over
the concatenation passes through the first list. -/
theorem takeWhile_append_all {α : Type} (p : α → Bool) (l1 l2 : List α)
    (hall : ∀ c ∈ l1, p c = true) :
    (l1 ++ l2).takeWhile p = l1 ++ l2.takeWhile p := by
  induction l1 with
  | nil => rfl
  | cons a l ih =>
    have hpa := hall a (List.mem_cons_self a l)
    have hrec := ih (fun c hc => hall c (List.mem_cons_of_mem a hc))
    simp [List.takeWhile_cons, hpa, hrec]

/-- Elements of the first list all satisfy the predicate, so dropWhile over
the concatenation skips the whole first list. -/
theorem dropWhile_append_all {α : Type} (p : α → Bool) (l1 l2 : List α)
    (hall : ∀ c ∈ l1, p c = true) :
    (l1 ++ l2).dropWhile p = l2.dropWhile p := by
  induction l1 with
  | nil => rfl
  | cons a l ih =>
    have hpa := hall a (List.mem_cons_self a l)
    have hrec := ih (fun c hc => hall c (List.mem_cons_of_mem a hc))
    simp [List.dropWhile_cons, hpa, hrec]

/-- C5: for an input with at least six records, the subsetter suffix
[0-2,5] splits off the bracket body, decompresses to the index list
0, 1, 2, 5, and gathers exactly those four records of the unsubsetted
input, in that order. -/
theorem c5_theorem {α : Type} (a b c d e f : α) (rest : List α) (name : String)
    (hnb : '[' ∉ name.toList) :
    splitSubsetterArg (name ++ "[0-2,5]") = (name, some "0-2,5") ∧
    decompressSubsetter "0-2,5" = [0, 1, 2, 5] ∧
    applySubset (a :: b :: c :: d :: e :: f :: rest) (decompressSubsetter "0-2,5")
      = some [a, b, c, f] ∧
    (decompressSubsetter "0-2,5").length = 4 := by
  have hdec : decompressSubsetter "0-2,5" = [0, 1, 2, 5] := by decide
  refine ⟨?_, hdec, ?_, by rw [hdec]; rfl⟩
  · have htl : (name ++ "[0-2,5]").toList
        = name.toList ++ ['[', '0', '-', '2', ',', '5', ']'] := by
      simp [String.toList, String.data_append]
    have hgl : (name.toList ++ ['[', '0', '-', '2', ',', '5', ']']).getLast?
        = some ']' := by
      rw [List.getLast?_append]
      rfl
    have hmem : '[' ∈ name.toList ++ ['[', '0', '-', '2', ',', '5', ']'] := by
      simp
    have hp : ∀ x ∈ name.toList, (x != '[') = true := by
      intro x hx
      simp only [bne_iff_ne, ne_eq]
      intro hEq
      exact hnb (hEq ▸ hx)
    have htw : (name.toList ++ ['[', '0', '-', '2', ',', '5', ']']).takeWhile
        (fun c => c != '[') = name.toList := by
      rw [takeWhile_append_all _ _ _ hp]
      norm_num
    have hdw : (name.toList ++ ['[', '0', '-', '2', ',', '5', ']']).dropWhile
        (fun c => c != '[') = ['[', '0', '-', '2', ',', '5', ']'] := by
      rw [dropWhile_append_all _ _ _ hp]
      decide
    simp only [splitSubsetterArg, htl]
    rw [if_pos ⟨hgl, hmem⟩, htw, hdw]
    rfl
  · rw [hdec]
    rfl

/-- C5 witness: the theorem at a concrete six-record input and a concrete
bracket-free file name. -/
theorem c5_witness :
    splitSubsetterArg ("ILATM1B_file.qi" ++ "[0-2,5]")
      = ("ILATM1B_file.qi", some "0-2,5") ∧
    decompressSubsetter "0-2,5" = [0, 1, 2, 5] ∧
    applySubset [(10 : ℤ), 20, 30, 40, 50, 60] (decompressSubsetter "0-2,5")
      = some [10, 20, 30, 60] ∧
    (decompressSubsetter "0-2,5").length = 4 :=
  c5_theorem 10 20 30 40 50 60 [] "ILATM1B_file.qi" (by decide)

/-- Models `compute_tides_icebridge_data` lines 920 to 924: the file-level
geospatial attributes are the minimum and maximum of the full latitude and
longitude arrays, with no exclusion of points whose tide value is masked.
Returns (lat min, lat max, lon min, lon max); `none` models the numpy error
on an empty array. -/
def icebridgeGeoAttrs (lats lons : List ℚ) : Option (ℚ × ℚ × ℚ × ℚ) :=
  match lats.min?, lats.max?, lons.min?, lons.max? with
  | some a, some b, some c, some d => some (a, b, c, d)
  | _, _, _, _ => none

/-- Values at non-masked positions of a masked array: the rows the claim
says the bounds should be computed over. -/
def maskedKeep (vals : List ℚ) (mask : List Bool) : List ℚ :=
  ((vals.zip mask).filter (fun p => !p.2)).map (fun p => p.1)

/-- One beam pair's geolocation and time variables as consumed by the range
fold of `HDF5_ATL11_tide_write` lines 987 to 999; `dtFill` is that pair's
delta-time fill value. -/
structure ATL11Pair where
  longitude : List ℚ
  latitude : List ℚ
  delta_time : List ℚ
  dtFill : ℚ

/-- Valid delta times of a pair, per line 992:
`valid = np.nonzero(delta_time != FILL_VALUE[ptx]['delta_time'])`. -/
def validTimes (p : ATL11Pair) : List ℚ :=
  p.delta_time.filter (fun t => decide (t ≠ p.dtFill))

/-- The six range accumulators of `HDF5_ATL11_tide_write` line 987, with
`none` modelling the infinite initial values. -/
structure GeoRanges where
  lnmn : Option ℚ
  lnmx : Option ℚ
  ltmn : Option ℚ
  ltmx : Option ℚ
  tmn : Option ℚ
  tmx : Option ℚ
  deriving DecidableEq

/-- Accumulator update `m = v if v < m else m` with `none` as infinity. -/
def accMin (acc : Option ℚ) (v : ℚ) : ℚ :=
  match acc with
  | none => v
  | some a => min a v

/-- Accumulator update `m = v if v > m else m` with `none` as minus
infinity. -/
def accMax (acc : Option ℚ) (v : ℚ) : ℚ :=
  match acc with
  | none => v
  | some a => max a v

/-- One iteration of the range fold of `HDF5_ATL11_tide_write` lines 988 to
999: longitude and latitude ranges are taken over the full arrays (the
`valid` filter is applied only to `delta_time`); `none` models the numpy
error when an array (or the valid-time subset) is empty. -/
def updRanges (acc : GeoRanges) (p : ATL11Pair) : Option GeoRanges := do
  let lnm ← p.longitude.min?
  let lnx ← p.longitude.max?
  let ltm ← p.latitude.min?
  let ltx ← p.latitude.max?
  let tm ← (validTimes p).min?
  let tx ← (validTimes p).max?
  pure ⟨some (accMin acc.lnmn lnm), some (accMax acc.lnmx lnx),
    some (accMin acc.ltmn ltm), some (accMax acc.ltmx ltx),
    some (accMin acc.tmn tm), some (accMax acc.tmx tx)⟩

/-- The range fold of `HDF5_ATL11_tide_write` lines 987 to 999 over all
beam pairs, starting from the infinite initial accumulators. -/
def atl11Ranges (pairs : List ATL11Pair) : Option GeoRanges :=
  pairs.foldlM updRanges ⟨none, none, none, none, none, none⟩

/-- Optional-minimum combination mirroring how `min?` acts on
concatenation. -/
def combineMin : Option ℚ → Option ℚ → Option ℚ
  | none, m => m
  | some a, none => some a
  | some a, some b => some (min a b)

/-- Optional-maximum combination mirroring how `max?` acts on
concatenation. -/
def combineMax : Option ℚ → Option ℚ → Option ℚ
  | none, m => m
  | some a, none => some a
  | some a, some b => some (max a b)

/-- The singleton or empty list tracked by an optional accumulator. -/
def optList : Option ℚ → List ℚ
  | none => []
  | some a => [a]

theorem ratMinAppend (xs ys : List ℚ) :
    (xs ++ ys).min? = combineMin xs.min? ys.min? := by
  induction xs with
  | nil => cases hys : ys.min? <;> simp [combineMin, hys]
  | cons x xs ih =>
    cases hxs : xs.min? with
    | none =>
      have hx : xs = [] := List.min?_eq_none_iff.mp hxs
      subst hx
      cases hys : ys.min? with
      | none =>
        have hy : ys = [] := List.min?_eq_none_iff.mp hys
        subst hy
        simp [combineMin]
      | some b =>
        simp [List.min?_cons, hys, combineMin]
    | some a =>
      cases hys : ys.min? with
      | none =>
        have hy : ys = [] := List.min?_eq_none_iff.mp hys
        subst hy
        simp [List.min?_cons, hxs, combineMin]
      | some b =>
        simp [List.min?_cons, ih, hxs, hys, combineMin, min_assoc]

theorem ratMaxAppend (xs ys : List ℚ) :
    (xs ++ ys).max? = combineMax xs.max? ys.max? := by
  induction xs with
  | nil => cases hys : ys.max? <;> simp [combineMax, hys]
  | cons x xs ih =>
    cases hxs : xs.max? with
    | none =>
      have hx : xs = [] := List.max?_eq_none_iff.mp hxs
      subst hx
      cases hys : ys.max? with
      | none =>
        have hy : ys = [] := List.max?_eq_none_iff.mp hys
        subst hy
        simp [combineMax]
      | some b =>
        simp [List.max?_cons, hys, combineMax]
    | some a =>
      cases hys : ys.max? with
      | none =>
        have hy : ys = [] := List.max?_eq_none_iff.mp hys
        subst hy
        simp [List.max?_cons, hxs, combineMax]
      | some b =>
        simp [List.max?_cons, ih, hxs, hys, combineMax, max_assoc]

theorem accMinStep (aco : Option ℚ) (v : ℚ) (L F : List ℚ)
    (hL : L.min? = some v) :
    (accMin aco v :: F).min? = (optList aco ++ (L ++ F)).min? := by
  have h1 : (accMin aco v :: F).min? = combineMin (some (accMin aco v)) F.min? := by
    rw [show accMin aco v :: F = [accMin aco v] ++ F from rfl, ratMinAppend]
    rfl
  rw [h1, ratMinAppend, ratMinAppend, hL]
  cases aco <;> cases hf : F.min? <;>
    simp [combineMin, accMin, optList, min_assoc]

theorem accMaxStep (aco : Option ℚ) (v : ℚ) (L F : List ℚ)
    (hL : L.max? = some v) :
    (accMax aco v :: F).max? = (optList aco ++ (L ++ F)).max? := by
  have h1 : (accMax aco v :: F).max? = combineMax (some (accMax aco v)) F.max? := by
    rw [show accMax aco v :: F = [accMax aco v] ++ F from rfl, ratMaxAppend]
    rfl
  rw [h1, ratMaxAppend, ratMaxAppend, hL]
  cases aco <;> cases hf : F.max? <;>
    simp [combineMax, accMax, optList, max_assoc]

theorem atl11RangesFold (pairs : List ATL11Pair) :
    ∀ acc r, pairs.foldlM updRanges acc = some r →
      r.lnmn = (optList acc.lnmn ++ (pairs.map ATL11Pair.longitude).flatten).min? ∧
      r.lnmx = (optList acc.lnmx ++ (pairs.map ATL11Pair.longitude).flatten).max? ∧
      r.ltmn = (optList acc.ltmn ++ (pairs.map ATL11Pair.latitude).flatten).min? ∧
      r.ltmx = (optList acc.ltmx ++ (pairs.map ATL11Pair.latitude).flatten).max? ∧
      r.tmn = (optList acc.tmn ++ (pairs.map validTimes).flatten).min? ∧
      r.tmx = (optList acc.tmx ++ (pairs.map validTimes).flatten).max? := by
  induction pairs with
  | nil =>
    intro acc r h
    simp only [List.foldlM_nil, Option.pure_def, Option.some.injEq] at h
    subst h
    refine ⟨?_, ?_, ?_, ?_, ?_, ?_⟩
    · cases hh : acc.lnmn <;> simp [optList, hh]
    · cases hh : acc.lnmx <;> simp [optList, hh]
    · cases hh : acc.ltmn <;> simp [optList, hh]
    · cases hh : acc.ltmx <;> simp [optList, hh]
    · cases hh : acc.tmn <;> simp [optList, hh]
    · cases hh : acc.tmx <;> simp [optList, hh]
  | cons p ps ih =>
    intro acc r h
    rw [List.foldlM_cons] at h
    cases hupd : updRanges acc p with
    | none => rw [hupd] at h; simp at h
    | some acc2 =>
      rw [hupd] at h
      simp only [Option.bind_eq_bind, Option.some_bind] at h
      obtain ⟨h1, h2, h3, h4, h5, h6⟩ := ih acc2 r h
      rw [updRanges] at hupd
      cases hlnm : p.longitude.min? with
      | none => rw [hlnm] at hupd; simp at hupd
      | some lnm =>
      cases hlnx : p.longitude.max? with
      | none => rw [hlnm, hlnx] at hupd; simp at hupd
      | some lnx =>
      cases hltm : p.latitude.min? with
      | none => rw [hlnm, hlnx, hltm] at hupd; simp at hupd
      | some ltm =>
      cases hltx : p.latitude.max? with
      | none => rw [hlnm, hlnx, hltm, hltx] at hupd; simp at hupd
      | some ltx =>
      cases htm : (validTimes p).min? with
      | none => rw [hlnm, hlnx, hltm, hltx, htm] at hupd; simp at hupd
      | some tm =>
      cases htx : (validTimes p).max? with
      | none => rw [hlnm, hlnx, hltm, hltx, htm, htx] at hupd; simp at hupd
      | some tx =>
      rw [hlnm, hlnx, hltm, hltx, htm, htx] at hupd
      simp only [Option.bind_eq_bind, Option.some_bind, Option.pure_def,
        Option.some.injEq] at hupd
      subst hupd
      simp only [List.map_cons, List.flatten_cons]
      refine ⟨?_, ?_, ?_, ?_, ?_, ?_⟩
      · rw [h1]; exact accMinStep acc.lnmn lnm p.longitude _ hlnm
      · rw [h2]; exact accMaxStep acc.lnmx lnx p.longitude _ hlnx
      · rw [h3]; exact accMinStep acc.ltmn ltm p.latitude _ hltm
      · rw [h4]; exact accMaxStep acc.ltmx ltx p.latitude _ hltx
      · rw [h5]; exact accMinStep acc.tmn tm (validTimes p) _ htm
      · rw [h6]; exact accMaxStep acc.tmx tx (validTimes p) _ htx

theorem ratMinSomeIff {xs : List ℚ} {a : ℚ} :
    xs.min? = some a ↔ a ∈ xs ∧ ∀ y ∈ xs, a ≤ y := by
  haveI : Std.Antisymm (fun (x y : ℚ) => x ≤ y) :=
    ⟨fun h h2 => le_antisymm h h2⟩
  exact List.min?_eq_some_iff (fun a => le_refl a) (fun a b => min_choice a b)
    (fun a b c => le_min_iff)

theorem ratMaxSomeIff {xs : List ℚ} {a : ℚ} :
    xs.max? = some a ↔ a ∈ xs ∧ ∀ y ∈ xs, y ≤ a := by
  haveI : Std.Antisymm (fun (x y : ℚ) => x ≤ y) :=
    ⟨fun h h2 => le_antisymm h h2⟩
  exact List.max?_eq_some_iff (fun a => le_refl a) (fun a b => max_choice a b)
    (fun a b c => max_le_iff)

/-- Longitudes of all beam pairs, concatenated. -/
def allLons (pairs : List ATL11Pair) : List ℚ :=
  (pairs.map ATL11Pair.longitude).flatten

/-- Latitudes of all beam pairs, concatenated. -/
def allLats (pairs : List ATL11Pair) : List ℚ :=
  (pairs.map ATL11Pair.latitude).flatten

/-- Valid (non-fill) delta times of all beam pairs, concatenated. -/
def allValidTimes (pairs : List ATL11Pair) : List ℚ :=
  (pairs.map validTimes).flatten

/-- C2: the claim states the geospatial bounds are taken over non-masked
points only.  Counterexample at concrete inputs: in the airborne driver, a
track whose second point (latitude 50) has its tide masked still reports
latitude maximum 50 although the maximum over non-masked points is 0; in
the repeat-track writer, a pair whose second row is invalid (delta time
equal to the fill value, latitude holding the latitude fill 9999) still
reports latitude maximum 9999 although the maximum over non-masked rows is
10.  Only the temporal range honours the valid filter. -/
theorem c2_counterexample :
    icebridgeGeoAttrs [0, 50] [10, 20] = some (0, 50, 10, 20) ∧
    (maskedKeep [0, 50] [false, true]).max? = some 0 ∧ (50 : ℚ) ≠ 0 ∧
    atl11Ranges [⟨[100, 200], [10, 9999], [5, -1], -1⟩]
      = some ⟨some 100, some 200, some 10, some 9999, some 5, some 5⟩ ∧
    (maskedKeep [10, 9999] [false, true]).max? = some 10 ∧ (9999 : ℚ) ≠ 10 := by
  refine ⟨?_, by decide, by norm_num, ?_, by decide, by norm_num⟩
  · decide
  · decide

/-- C2 (amended): the geospatial bounds written by both drivers are the
minima and maxima over all points, including masked and sentinel rows: in
the airborne driver over the full latitude and longitude arrays, and in the
repeat-track writer over the full arrays of every beam pair; only the
temporal coverage of the repeat-track product restricts to rows whose delta
time differs from the fill value. -/
theorem c2_theorem (lats lons : List ℚ) (pairs : List ATL11Pair)
    (a b c d : ℚ) (r : GeoRanges)
    (hib : icebridgeGeoAttrs lats lons = some (a, b, c, d))
    (hat : atl11Ranges pairs = some r) :
    ((a ∈ lats ∧ ∀ x ∈ lats, a ≤ x) ∧ (b ∈ lats ∧ ∀ x ∈ lats, x ≤ b) ∧
      (c ∈ lons ∧ ∀ x ∈ lons, c ≤ x) ∧ (d ∈ lons ∧ ∀ x ∈ lons, x ≤ d)) ∧
    (∀ m, r.lnmn = some m → m ∈ allLons pairs ∧ ∀ x ∈ allLons pairs, m ≤ x) ∧
    (∀ m, r.lnmx = some m → m ∈ allLons pairs ∧ ∀ x ∈ allLons pairs, x ≤ m) ∧
    (∀ m, r.ltmn = some m → m ∈ allLats pairs ∧ ∀ x ∈ allLats pairs, m ≤ x) ∧
    (∀ m, r.ltmx = some m → m ∈ allLats pairs ∧ ∀ x ∈ allLats pairs, x ≤ m) ∧
    (∀ m, r.tmn = some m →
      m ∈ allValidTimes pairs ∧ ∀ x ∈ allValidTimes pairs, m ≤ x) ∧
    (∀ m, r.tmx = some m →
      m ∈ allValidTimes pairs ∧ ∀ x ∈ allValidTimes pairs, x ≤ m) := by
  obtain ⟨g1, g2, g3, g4, g5, g6⟩ :=
    atl11RangesFold pairs ⟨none, none, none, none, none, none⟩ r hat
  simp only [optList, List.nil_append] at g1 g2 g3 g4 g5 g6
  constructor
  · rw [icebridgeGeoAttrs] at hib
    cases h1 : lats.min? with
    | none => rw [h1] at hib; simp at hib
    | some a0 =>
    cases h2 : lats.max? with
    | none => rw [h1, h2] at hib; simp at hib
    | some b0 =>
    cases h3 : lons.min? with
    | none => rw [h1, h2, h3] at hib; simp at hib
    | some c0 =>
    cases h4 : lons.max? with
    | none => rw [h1, h2, h3, h4] at hib; simp at hib
    | some d0 =>
    rw [h1, h2, h3, h4] at hib
    simp only [Option.some.injEq, Prod.mk.injEq] at hib
    obtain ⟨ha, hb, hc, hd⟩ := hib
    subst ha; subst hb; subst hc; subst hd
    exact ⟨ratMinSomeIff.mp h1, ratMaxSomeIff.mp h2,
      ratMinSomeIff.mp h3, ratMaxSomeIff.mp h4⟩
  · refine ⟨?_, ?_, ?_, ?_, ?_, ?_⟩
    · intro m hm; rw [g1] at hm; exact ratMinSomeIff.mp hm
    · intro m hm; rw [g2] at hm; exact ratMaxSomeIff.mp hm
    · intro m hm; rw [g3] at hm; exact ratMinSomeIff.mp hm
    · intro m hm; rw [g4] at hm; exact ratMaxSomeIff.mp hm
    · intro m hm; rw [g5] at hm; exact ratMinSomeIff.mp hm
    · intro m hm; rw [g6] at hm; exact ratMaxSomeIff.mp hm

/-- C2 witness: the amended theorem at a concrete one-pair product. -/
theorem c2_witness :
    (((0 : ℚ) ∈ [(0 : ℚ), 50] ∧ ∀ x ∈ [(0 : ℚ), 50], 0 ≤ x) ∧
      ((50 : ℚ) ∈ [(0 : ℚ), 50] ∧ ∀ x ∈ [(0 : ℚ), 50], x ≤ 50) ∧
      ((10 : ℚ) ∈ [(10 : ℚ), 20] ∧ ∀ x ∈ [(10 : ℚ), 20], 10 ≤ x) ∧
      ((20 : ℚ) ∈ [(10 : ℚ), 20] ∧ ∀ x ∈ [(10 : ℚ), 20], x ≤ 20)) ∧
    (∀ m, (GeoRanges.mk (some 100) (some 200) (some 10) (some 9999)
        (some 5) (some 5)).lnmn = some m →
      m ∈ allLons [⟨[100, 200], [10, 9999], [5, -1], -1⟩] ∧
        ∀ x ∈ allLons [⟨[100, 200], [10, 9999], [5, -1], -1⟩], m ≤ x) ∧
    (∀ m, (GeoRanges.mk (some 100) (some 200) (some 10) (some 9999)
        (some 5) (some 5)).lnmx = some m →
      m ∈ allLons [⟨[100, 200], [10, 9999], [5, -1], -1⟩] ∧
        ∀ x ∈ allLons [⟨[100, 200], [10, 9999], [5, -1], -1⟩], x ≤ m) ∧
    (∀ m, (GeoRanges.mk (some 100) (some 200) (some 10) (some 9999)
        (some 5) (some 5)).ltmn = some m →
      m ∈ allLats [⟨[100, 200], [10, 9999], [5, -1], -1⟩] ∧
        ∀ x ∈ allLats [⟨[100, 200], [10, 9999], [5, -1], -1⟩], m ≤ x) ∧
    (∀ m, (GeoRanges.mk (some 100) (some 200) (some 10) (some 9999)
        (some 5) (some 5)).ltmx = some m →
      m ∈ allLats [⟨[100, 200], [10, 9999], [5, -1], -1⟩] ∧
        ∀ x ∈ allLats [⟨[100, 200], [10, 9999], [5, -1], -1⟩], x ≤ m) ∧
    (∀ m, (GeoRanges.mk (some 100) (some 200) (some 10) (some 9999)
        (some 5) (some 5)).tmn = some m →
      m ∈ allValidTimes [⟨[100, 200], [10, 9999], [5, -1], -1⟩] ∧
        ∀ x ∈ allValidTimes [⟨[100, 200], [10, 9999], [5, -1], -1⟩], m ≤ x) ∧
    (∀ m, (GeoRanges.mk (some 100) (some 200) (some 10) (some 9999)
        (some 5) (some 5)).tmx = some m →
      m ∈ allValidTimes [⟨[100, 200], [10, 9999], [5, -1], -1⟩] ∧
        ∀ x ∈ allValidTimes [⟨[100, 200], [10, 9999], [5, -1], -1⟩], x ≤ m) :=
  c2_theorem [0, 50] [10, 20] [⟨[100, 200], [10, 9999], [5, -1], -1⟩]
    0 50 10 20 ⟨some 100, some 200, some 10, some 9999, some 5, some 5⟩
    (by decide) (by decide)

/-- The two model-descriptor fields that drive all downstream dispatch in
both scripts: the output tide variable name and the model format tag. -/
structure ModelDesc where
  output_variable : String
  model_format : String
  deriving DecidableEq

/-- Models the model-selection chain of `compute_tides_icebridge_data`
lines 454 to 744: one branch per known tide model setting the output
variable and model format (file paths, scales and references omitted as
they do not affect control flow); an unknown identifier matches no branch
and leaves every model variable unbound (`none`). -/
def resolveIcebridge (m : String) : Option ModelDesc :=
  if m = "CATS0201" then some ⟨"tide_ocean", "OTIS"⟩
  else if m = "CATS2008" then some ⟨"tide_ocean", "OTIS"⟩
  else if m = "CATS2008_load" then some ⟨"tide_load", "OTIS"⟩
  else if m = "TPXO9-atlas" then some ⟨"tide_ocean", "netcdf"⟩
  else if m = "TPXO9-atlas-v2" then some ⟨"tide_ocean", "netcdf"⟩
  else if m = "TPXO9-atlas-v3" then some ⟨"tide_ocean", "netcdf"⟩
  else if m = "TPXO9-atlas-v4" then some ⟨"tide_ocean", "OTIS"⟩
  else if m = "TPXO9.1" then some ⟨"tide_ocean", "OTIS"⟩
  else if m = "TPXO8-atlas" then some ⟨"tide_ocean", "ATLAS"⟩
  else if m = "TPXO7.2" then some ⟨"tide_ocean", "OTIS"⟩
  else if m = "TPXO7.2_load" then some ⟨"tide_load", "OTIS"⟩
  else if m = "AODTM-5" then some ⟨"tide_ocean", "OTIS"⟩
  else if m = "AOTIM-5" then some ⟨"tide_ocean", "OTIS"⟩
  else if m = "AOTIM-5-2018" then some ⟨"tide_ocean", "OTIS"⟩
  else if m = "Gr1km-v2" then some ⟨"tide_ocean", "OTIS"⟩
  else if m = "GOT4.7" then some ⟨"tide_ocean", "GOT"⟩
  else if m = "GOT4.7_load" then some ⟨"tide_load", "GOT"⟩
  else if m = "GOT4.8" then some ⟨"tide_ocean", "GOT"⟩
  else if m = "GOT4.8_load" then some ⟨"tide_load", "GOT"⟩
  else if m = "GOT4.10" then some ⟨"tide_ocean", "GOT"⟩
  else if m = "GOT4.10_load" then some ⟨"tide_load", "GOT"⟩
  else if m = "FES2014" then some ⟨"tide_ocean", "FES"⟩
  else if m = "FES2014_load" then some ⟨"tide_load", "FES"⟩
  else none

/-- Models the model-selection chain of `compute_tides_ICESat2`
lines 117 to 464: the same 23 identifiers, variables and formats as the
airborne driver. -/
def resolveATL11 (m : String) : Option ModelDesc :=
  if m = "CATS0201" then some ⟨"tide_ocean", "OTIS"⟩
  else if m = "CATS2008" then some ⟨"tide_ocean", "OTIS"⟩
  else if m = "CATS2008_load" then some ⟨"tide_load", "OTIS"⟩
  else if m = "TPXO9-atlas" then some ⟨"tide_ocean", "netcdf"⟩
  else if m = "TPXO9-atlas-v2" then some ⟨"tide_ocean", "netcdf"⟩
  else if m = "TPXO9-atlas-v3" then some ⟨"tide_ocean", "netcdf"⟩
  else if m = "TPXO9-atlas-v4" then some ⟨"tide_ocean", "OTIS"⟩
  else if m = "TPXO9.1" then some ⟨"tide_ocean", "OTIS"⟩
  else if m = "TPXO8-atlas" then some ⟨"tide_ocean", "ATLAS"⟩
  else if m = "TPXO7.2" then some ⟨"tide_ocean", "OTIS"⟩
  else if m = "TPXO7.2_load" then some ⟨"tide_load", "OTIS"⟩
  else if m = "AODTM-5" then some ⟨"tide_ocean", "OTIS"⟩
  else if m = "AOTIM-5" then some ⟨"tide_ocean", "OTIS"⟩
  else if m = "AOTIM-5-2018" then some ⟨"tide_ocean", "OTIS"⟩
  else if m = "Gr1km-v2" then some ⟨"tide_ocean", "OTIS"⟩
  else if m = "GOT4.7" then some ⟨"tide_ocean", "GOT"⟩
  else if m = "GOT4.7_load" then some ⟨"tide_load", "GOT"⟩
  else if m = "GOT4.8" then some ⟨"tide_ocean", "GOT"⟩
  else if m = "GOT4.8_load" then some ⟨"tide_load", "GOT"⟩
  else if m = "GOT4.10" then some ⟨"tide_ocean", "GOT"⟩
  else if m = "GOT4.10_load" then some ⟨"tide_load", "GOT"⟩
  else if m = "FES2014" then some ⟨"tide_ocean", "FES"⟩
  else if m = "FES2014_load" then some ⟨"tide_load", "FES"⟩
  else none

/-- The `model_choices` tuple passed to the argparse `choices` option by
both `main` functions (icebridge lines 969 to 974, ATL11 lines 1049
to 1054); the command-line parser rejects any other value before the
compute function runs. -/
def cliModelChoices : List String :=
  ["CATS0201", "CATS2008", "CATS2008_load",
   "TPXO9-atlas", "TPXO9-atlas-v2", "TPXO9-atlas-v3", "TPXO9-atlas-v4",
   "TPXO9.1", "TPXO8-atlas", "TPXO7.2", "TPXO7.2_load",
   "AODTM-5", "AOTIM-5", "AOTIM-5-2018", "Gr1km-v2",
   "GOT4.7", "GOT4.7_load", "GOT4.8", "GOT4.8_load",
   "GOT4.10", "GOT4.10_load", "FES2014", "FES2014_load"]

set_option maxHeartbeats 1600000 in
theorem resolveIcebridgeNone (m : String) (hm : m ∉ cliModelChoices) :
    resolveIcebridge m = none := by
  simp only [cliModelChoices, List.mem_cons, List.not_mem_nil, or_false,
    not_or] at hm
  obtain ⟨n1, n2, n3, n4, n5, n6, n7, n8, n9, n10, n11, n12, n13, n14, n15,
    n16, n17, n18, n19, n20, n21, n22, n23⟩ := hm
  simp [resolveIcebridge, n1, n2, n3, n4, n5, n6, n7, n8, n9, n10, n11, n12,
    n13, n14, n15, n16, n17, n18, n19, n20, n21, n22, n23]

set_option maxHeartbeats 1600000 in
theorem resolveATL11None (m : String) (hm : m ∉ cliModelChoices) :
    resolveATL11 m = none := by
  simp only [cliModelChoices, List.mem_cons, List.not_mem_nil, or_false,
    not_or] at hm
  obtain ⟨n1, n2, n3, n4, n5, n6, n7, n8, n9, n10, n11, n12, n13, n14, n15,
    n16, n17, n18, n19, n20, n21, n22, n23⟩ := hm
  simp [resolveATL11, n1, n2, n3, n4, n5, n6, n7, n8, n9, n10, n11, n12,
    n13, n14, n15, n16, n17, n18, n19, n20, n21, n22, n23]

set_option maxHeartbeats 1600000 in
theorem resolveIcebridgeDomain (m : String) :
    (resolveIcebridge m).isSome = true ↔ m ∈ cliModelChoices := by
  constructor
  · intro h
    by_contra hm
    rw [resolveIcebridgeNone m hm] at h
    simp at h
  · intro h
    simp only [cliModelChoices, List.mem_cons, List.not_mem_nil, or_false] at h
    rcases h with rfl | rfl | rfl | rfl | rfl | rfl | rfl | rfl | rfl | rfl |
      rfl | rfl | rfl | rfl | rfl | rfl | rfl | rfl | rfl | rfl | rfl | rfl |
      rfl <;> decide

set_option maxHeartbeats 1600000 in
theorem resolveATL11Domain (m : String) :
    (resolveATL11 m).isSome = true ↔ m ∈ cliModelChoices := by
  constructor
  · intro h
    by_contra hm
    rw [resolveATL11None m hm] at h
    simp at h
  · intro h
    simp only [cliModelChoices, List.mem_cons, List.not_mem_nil, or_false] at h
    rcases h with rfl | rfl | rfl | rfl | rfl | rfl | rfl | rfl | rfl | rfl |
      rfl | rfl | rfl | rfl | rfl | rfl | rfl | rfl | rfl | rfl | rfl | rfl |
      rfl <;> decide

/-- Coarse events of a driver run, in program order. -/
inductive PipelineEvent
  | resolveModel
  | readInputFile
  | unboundModelVariable
  deriving DecidableEq

/-- Order of operations of `compute_tides_icebridge_data` for the stages
relevant to model validation: the model chain runs first (lines 454 to
744), then the attribute dictionary references `output_variable` (line
761), raising a NameError for an unknown model, and only afterwards is the
input data file read (lines 797 to 805).  The trace is truncated after the
input read. -/
def icebridgeTrace (m : String) : List PipelineEvent :=
  match resolveIcebridge m with
  | some _ => [.resolveModel, .readInputFile]
  | none => [.resolveModel, .unboundModelVariable]

/-- Order of operations of `compute_tides_ICESat2`: the model chain runs
first (lines 117 to 464), then the input file is read by
`read_HDF5_ATL11` (line 468), and only inside the per-track loop is
`model_format` first referenced (line 568), raising a NameError for an
unknown model after the input file has already been read.  The trace is
truncated after the input read. -/
def atl11Trace (m : String) : List PipelineEvent :=
  match resolveATL11 m with
  | some _ => [.resolveModel, .readInputFile]
  | none => [.resolveModel, .readInputFile, .unboundModelVariable]

/-- C7: the claim states that for every identifier outside the catalog the
pipeline raises an unknown-model error before any input-file I/O.
Counterexample at the concrete unknown identifier FOO: the repeat-track
driver reads the input file first and only then hits the unbound model
variable, so the failure is not raised before input-file I/O. -/
theorem c7_counterexample :
    resolveATL11 "FOO" = none ∧
    atl11Trace "FOO" = [PipelineEvent.resolveModel, PipelineEvent.readInputFile,
      PipelineEvent.unboundModelVariable] ∧
    (atl11Trace "FOO").indexOf PipelineEvent.readInputFile
      < (atl11Trace "FOO").indexOf PipelineEvent.unboundModelVariable := by
  refine ⟨by decide, by decide, by decide⟩

/-- C7 (amended): the catalog has exactly 23 identifiers and equals the
argparse choices list, which rejects unknown identifiers before the compute
functions run; called directly with an unknown identifier, the airborne
driver fails on an unbound model variable before reading the input file,
but the repeat-track driver reads the input file first and fails only
afterwards, and neither raises a dedicated unknown-model error. -/
theorem c7_theorem (m : String) (hm : m ∉ cliModelChoices) :
    resolveIcebridge m = none ∧ resolveATL11 m = none ∧
    icebridgeTrace m = [PipelineEvent.resolveModel,
      PipelineEvent.unboundModelVariable] ∧
    atl11Trace m = [PipelineEvent.resolveModel, PipelineEvent.readInputFile,
      PipelineEvent.unboundModelVariable] ∧
    PipelineEvent.readInputFile ∉ icebridgeTrace m ∧
    cliModelChoices.length = 23 ∧
    (∀ k, (resolveIcebridge k).isSome = true ↔ k ∈ cliModelChoices) ∧
    (∀ k, (resolveATL11 k).isSome = true ↔ k ∈ cliModelChoices) := by
  have h1 : resolveIcebridge m = none := by
    rcases ho : resolveIcebridge m with _ | d
    · rfl
    · exact absurd ((resolveIcebridgeDomain m).mp (by rw [ho]; rfl)) hm
  have h2 : resolveATL11 m = none := by
    rcases ho : resolveATL11 m with _ | d
    · rfl
    · exact absurd ((resolveATL11Domain m).mp (by rw [ho]; rfl)) hm
  refine ⟨h1, h2, ?_, ?_, ?_, rfl, resolveIcebridgeDomain, resolveATL11Domain⟩
  · rw [icebridgeTrace, h1]
  · rw [atl11Trace, h2]
  · rw [icebridgeTrace, h1]
    decide

/-- C7 witness: the amended theorem at the concrete unknown identifier. -/
theorem c7_witness :
    resolveIcebridge "FOO" = none ∧ resolveATL11 "FOO" = none ∧
    icebridgeTrace "FOO" = [PipelineEvent.resolveModel,
      PipelineEvent.unboundModelVariable] ∧
    atl11Trace "FOO" = [PipelineEvent.resolveModel, PipelineEvent.readInputFile,
      PipelineEvent.unboundModelVariable] ∧
    PipelineEvent.readInputFile ∉ icebridgeTrace "FOO" ∧
    cliModelChoices.length = 23 ∧
    (∀ k, (resolveIcebridge k).isSome = true ↔ k ∈ cliModelChoices) ∧
    (∀ k, (resolveATL11 k).isSome = true ↔ k ∈ cliModelChoices) :=
  c7_theorem "FOO" (by decide)

/-- The capture groups of the ATLAS granule pattern of
`compute_tides_ICESat2` lines 472 and 473: optional processed marker,
product, track, granule region, start and end cycle, release, version and
auxiliary text. -/
structure ATLASTokens where
  sub : Bool
  PRD : String
  TRK : String
  GRAN : String
  SCYC : String
  ECYC : String
  RL : String
  VERS : String
  AUX : String
  deriving DecidableEq

/-- Consumes exactly n decimal digits from the front of the input,
returning them and the rest. -/
def takeDigitsN : ℕ → List Char → Option (List Char × List Char)
  | 0, cs => some ([], cs)
  | _ + 1, [] => none
  | n + 1, c :: cs =>
    if c.isDigit then
      match takeDigitsN n cs with
      | some (ds, rest) => some (c :: ds, rest)
      | none => none
    else none

/-- Consumes one expected character from the front of the input. -/
def expectChar (c : Char) : List Char → Option (List Char)
  | [] => none
  | x :: xs => if x = c then some xs else none

/-- Matches the mandatory part of the ATLAS granule pattern
`ATL(dd)_(dddd)(dd)_(dd)(dd)_(ddd)_(dd)(.*?).h5` against the whole rest of
the filename: because of the end anchor, the lazy auxiliary group takes
everything up to the final three characters, of which the last two must be
h5 (the dot of the pattern matches any character). -/
def matchGranuleCore (sub : Bool) (cs0 : List Char) : Option ATLASTokens := do
  let cs ← expectChar 'A' cs0
  let cs ← expectChar 'T' cs
  let cs ← expectChar 'L' cs
  let (prd, cs) ← takeDigitsN 2 cs
  let cs ← expectChar '_' cs
  let (trk, cs) ← takeDigitsN 4 cs
  let (gran, cs) ← takeDigitsN 2 cs
  let cs ← expectChar '_' cs
  let (scyc, cs) ← takeDigitsN 2 cs
  let (ecyc, cs) ← takeDigitsN 2 cs
  let cs ← expectChar '_' cs
  let (rl, cs) ← takeDigitsN 3 cs
  let cs ← expectChar '_' cs
  let (vers, cs) ← takeDigitsN 2 cs
  if 3 ≤ cs.length ∧ cs.drop (cs.length - 2) = ['h', '5'] then
    some ⟨sub, ⟨'A' :: 'T' :: 'L' :: prd⟩, ⟨trk⟩, ⟨gran⟩, ⟨scyc⟩, ⟨ecyc⟩,
      ⟨rl⟩, ⟨vers⟩, ⟨cs.take (cs.length - 3)⟩⟩
  else none

/-- Matches the granule pattern at one start position: the greedy optional
processed marker is taken when present (and dropped on backtracking, in
which case the core cannot match a position starting with p anyway). -/
def matchGranuleAt (cs : List Char) : Option ATLASTokens :=
  if cs.take 10 = "processed_".toList then
    match matchGranuleCore true (cs.drop 10) with
    | some t => some t
    | none => matchGranuleCore false cs
  else matchGranuleCore false cs

/-- Scans for the leftmost start position at which the granule pattern
matches through to the end of the filename, modelling `rx.findall` followed
by `.pop()` (the end anchor makes at most one match possible). -/
def findGranule : List Char → Option ATLASTokens
  | [] => none
  | c :: rest =>
    match matchGranuleAt (c :: rest) with
    | some t => some t
    | none => findGranule rest

/-- The ASAS/NSIDC granule output pattern of `compute_tides_ICESat2`
lines 483 to 485. -/
def granuleOutputName (t : ATLASTokens) (model : String) : String :=
  t.PRD ++ "_" ++ model ++ "_TIDES_" ++ t.TRK ++ t.GRAN ++ "_" ++ t.SCYC ++
    t.ECYC ++ "_" ++ t.RL ++ "_" ++ t.VERS ++ t.AUX ++ ".h5"

/-- Base part of `os.path.splitext`: everything before the last dot (the
whole name when there is no dot). -/
def splitExtBase (s : String) : String :=
  let cs := s.toList
  let pre := cs.reverse.takeWhile (fun c => c != '.')
  if pre.length = cs.length then s
  else ⟨cs.take (cs.length - pre.length - 1)⟩

/-- Extension part of `os.path.splitext`: the last dot and everything after
it (empty when there is no dot). -/
def splitExtTail (s : String) : String :=
  let cs := s.toList
  let pre := cs.reverse.takeWhile (fun c => c != '.')
  if pre.length = cs.length then ""
  else ⟨cs.drop (cs.length - pre.length - 1)⟩

/-- The output-filename derivation of `compute_tides_ICESat2` lines 471 to
485: the granule pattern when the input name matches the ATLAS grammar,
otherwise the generic `basename_MODEL_TIDESextension` fallback. -/
def atl11OutputName (inputFile model : String) : String :=
  match findGranule inputFile.toList with
  | some t => granuleOutputName t model
  | none =>
    splitExtBase inputFile ++ "_" ++ model ++ "_TIDES" ++ splitExtTail inputFile

/-- The hemisphere to region-flag dictionary of
`compute_tides_icebridge_data` line 853. -/
def hemFlag (hem : String) : Option String :=
  if hem = "N" then some "GR" else if hem = "S" then some "AN" else none

/-- Floating-point modulo with the sign of the divisor, as computed by the
numpy % operator. -/
def qmod (a b : ℚ) : ℚ := a - b * ⌊a / b⌋

/-- Zero-padded width-5 integer rendering, modelling `'{6:05.0f}'` for
non-negative values. -/
def fmtWidth5 (n : ℤ) : String := ⟨padZeroLeft 5 (natDigits n.toNat)⟩

/-- The output-filename derivation of `compute_tides_icebridge_data`
lines 853 to 858: region flag, model, instrument and date tokens, and the
starting second of the day (the minimum track time modulo 86400). -/
def icebridgeOutputName (hem model oib yy mm dd : String) (times : List ℚ) :
    Option String :=
  match hemFlag hem, times.min? with
  | some rg, some tmin =>
    some (rg ++ "_NASA_" ++ model ++ "_TIDES_WGS84_" ++ oib ++ yy ++ mm ++ dd
      ++ fmtWidth5 (round (qmod tmin 86400)) ++ ".H5")
  | _, _ => none

/-- C9: the output-filename derivation is a pure function of the input
filename tokens, model identifier and track data: it yields the granule
pattern exactly when the input name matches the ATLAS grammar and the
generic `basename_MODEL_TIDES.extension` fallback otherwise, and the
airborne name depends on the track data only through the minimum time. -/
theorem c9_theorem (f m f2 m2 hem model oib yy mm dd : String)
    (times times2 : List ℚ) :
    (∀ t, findGranule f.toList = some t →
      atl11OutputName f m = granuleOutputName t m) ∧
    (findGranule f.toList = none →
      atl11OutputName f m
        = splitExtBase f ++ "_" ++ m ++ "_TIDES" ++ splitExtTail f) ∧
    (f = f2 → m = m2 → atl11OutputName f m = atl11OutputName f2 m2) ∧
    (times.min? = times2.min? →
      icebridgeOutputName hem model oib yy mm dd times
        = icebridgeOutputName hem model oib yy mm dd times2) := by
  refine ⟨?_, ?_, ?_, ?_⟩
  · intro t h
    rw [atl11OutputName, h]
  · intro h
    rw [atl11OutputName, h]
  · intro h1 h2
    rw [h1, h2]
  · intro h
    rw [icebridgeOutputName, icebridgeOutputName, h]

/-- C9 witness: the theorem applied at a concrete matching granule name, a
concrete non-matching name, and two concrete time vectors sharing their
minimum. -/
theorem c9_witness :
    atl11OutputName "ATL11_011110_0308_004_01.h5" "CATS2008"
      = granuleOutputName
          ⟨false, "ATL11", "0111", "10", "03", "08", "004", "01", ""⟩
          "CATS2008" ∧
    atl11OutputName "generic_file.h5" "CATS2008"
      = splitExtBase "generic_file.h5" ++ "_" ++ "CATS2008" ++ "_TIDES" ++
          splitExtTail "generic_file.h5" ∧
    icebridgeOutputName "N" "CATS2008" "ATM" "1993" "01" "15" [200, 100]
      = icebridgeOutputName "N" "CATS2008" "ATM" "1993" "01" "15" [100, 300] :=
  ⟨(c9_theorem ("ATL11_011110_0308_004_01.h5") "CATS2008" "" "" "" "" "" "" ""
      "" [] []).1
      ⟨false, "ATL11", "0111", "10", "03", "08", "004", "01", ""⟩ (by decide),
   (c9_theorem ("generic_file.h5") "CATS2008" "" "" "" "" "" "" "" "" [] []).2.1
      (by decide),
   (c9_theorem ("") "" "" "" "N" "CATS2008" "ATM" "1993" "01" "15"
      [200, 100] [100, 300]).2.2.2 (by decide)⟩

/-- Valid (unmasked) point indices of one cycle column, in order, as
produced by `valid, = np.nonzero(~tide[track].mask[:,cycle])` in
`compute_tides_ICESat2` line 606. -/
def validList (n : ℕ) (maskc : Fin n → Bool) : List (Fin n) :=
  (List.finRange n).filter (fun i => !maskc i)

/-- Models one cycle column of the along-track branch of
`compute_tides_ICESat2`: the initial mask is set where the delta time
equals its fill value (line 554), the constituent-extraction mask row is
folded in per cycle (line 605), the external services
`predict_tide_drift` and `infer_minor_corrections` (abstract parameters P
and M, with the composite time conversion `conv` of lines 562 to 566
applied pointwise) are called on that column's restricted time vector, and
their sum is scattered back to the valid positions (lines 608 to 613); the
final fold of lines 626 to 629 then replaces masked or NaN entries with
the fill value and sets their mask, so masked positions (whose data slot
was never written) come out as the sentinel. -/
def atCycleColumn (n : ℕ) (fv fvDT : ℚ) (conv : ℚ → ℚ)
    (P M : List ℚ → List (Option ℚ)) (hcAny : Fin n → Bool)
    (dtcol : Fin n → ℚ) : Fin n → Option ℚ × Bool :=
  let maskc : Fin n → Bool := fun i => decide (dtcol i = fvDT) || hcAny i
  let valid := validList n maskc
  let ts := valid.map (fun i => conv (dtcol i))
  let pv := P ts
  let mv := M ts
  fun i =>
    if maskc i then (some fv, true)
    else
      let d := nanAdd (pv.getD (valid.indexOf i) none)
        (mv.getD (valid.indexOf i) none)
      if d.isNone then (some fv, true) else (d, false)

/-- Models the whole along-track loop of `compute_tides_ICESat2` lines 601
to 613: the per-cycle computation is run once per cycle column, each run
seeing only that column of the delta-time matrix. -/
def atTrackTide (n k : ℕ) (fv fvDT : ℚ) (conv : ℚ → ℚ)
    (P M : List ℚ → List (Option ℚ)) (hcAny : Fin n → Bool)
    (dt : Fin n → Fin k → ℚ) : Fin n → Fin k → Option ℚ × Bool :=
  fun i c => atCycleColumn n fv fvDT conv P M hcAny (fun j => dt j c) i

theorem atCycleColumn_masked (n : ℕ) (fv fvDT : ℚ) (conv : ℚ → ℚ)
    (P M : List ℚ → List (Option ℚ)) (hcAny : Fin n → Bool)
    (dtcol : Fin n → ℚ) (i : Fin n)
    (hm : (decide (dtcol i = fvDT) || hcAny i) = true) :
    atCycleColumn n fv fvDT conv P M hcAny dtcol i = (some fv, true) := by
  simp only [atCycleColumn, hm, if_true]

theorem atCycleColumn_unmasked (n : ℕ) (fv fvDT : ℚ) (conv : ℚ → ℚ)
    (P M : List ℚ → List (Option ℚ)) (hcAny : Fin n → Bool)
    (dtcol : Fin n → ℚ) (i : Fin n)
    (hm : ∀ j, (decide (dtcol j = fvDT) || hcAny j) = false) :
    atCycleColumn n fv fvDT conv P M hcAny dtcol i =
      (let ts := (List.finRange n).map (fun j => conv (dtcol j))
       let d := nanAdd ((P ts).getD i.val none) ((M ts).getD i.val none)
       if d.isNone then (some fv, true) else (d, false)) := by
  have hvalid : validList n (fun j => decide (dtcol j = fvDT) || hcAny j)
      = List.finRange n := by
    rw [validList]
    apply List.filter_eq_self.mpr
    intro a _
    simp [hm a]
  simp only [atCycleColumn, hvalid, hm i, List.indexOf_finRange,
    Bool.false_eq_true, if_false]

/-- C6: for an along-track track with two cycle columns where cycle column
0 is entirely masked (every delta time equals the fill value) and cycle
column 1 is entirely valid (no fill delta times, no constituent mask, and
the services return non-NaN values summing to non-sentinel values), the
output carries the sentinel with the mask set throughout column 0 and the
computed prediction-plus-minor values, unmasked, throughout column 1;
moreover, for any track, each output column depends only on that column of
the delta-time matrix, so one cycle's values never depend on another
cycle's time vector. -/
theorem c6_theorem (n : ℕ) (fv fvDT : ℚ) (conv : ℚ → ℚ)
    (P M : List ℚ → List (Option ℚ)) (hcAny : Fin n → Bool)
    (dt : Fin n → Fin 2 → ℚ)
    (hhc : ∀ i, hcAny i = false)
    (h0 : ∀ i, dt i 0 = fvDT)
    (h1 : ∀ i, dt i 1 ≠ fvDT)
    (hval : ∀ i : Fin n,
      (nanAdd ((P ((List.finRange n).map (fun j => conv (dt j 1)))).getD i.val none)
        ((M ((List.finRange n).map (fun j => conv (dt j 1)))).getD i.val none)).isNone
        = false)
    (hsent : ∀ i : Fin n,
      nanAdd ((P ((List.finRange n).map (fun j => conv (dt j 1)))).getD i.val none)
        ((M ((List.finRange n).map (fun j => conv (dt j 1)))).getD i.val none)
        ≠ some fv) :
    (∀ i, atTrackTide n 2 fv fvDT conv P M hcAny dt i 0 = (some fv, true)) ∧
    (∀ i, atTrackTide n 2 fv fvDT conv P M hcAny dt i 1
      = (nanAdd ((P ((List.finRange n).map (fun j => conv (dt j 1)))).getD i.val none)
          ((M ((List.finRange n).map (fun j => conv (dt j 1)))).getD i.val none),
        false)) ∧
    (∀ i, (atTrackTide n 2 fv fvDT conv P M hcAny dt i 1).1 ≠ some fv ∧
      (atTrackTide n 2 fv fvDT conv P M hcAny dt i 1).2 = false) ∧
    (∀ (k : ℕ) (dta dtb : Fin n → Fin k → ℚ) (c : Fin k),
      (∀ j, dta j c = dtb j c) →
      ∀ i, atTrackTide n k fv fvDT conv P M hcAny dta i c
        = atTrackTide n k fv fvDT conv P M hcAny dtb i c) := by
  have hcol1 : ∀ i, atTrackTide n 2 fv fvDT conv P M hcAny dt i 1
      = (nanAdd ((P ((List.finRange n).map (fun j => conv (dt j 1)))).getD i.val none)
          ((M ((List.finRange n).map (fun j => conv (dt j 1)))).getD i.val none),
        false) := by
    intro i
    rw [atTrackTide, atCycleColumn_unmasked n fv fvDT conv P M hcAny
      (fun j => dt j 1) i (fun j => by simp [hhc j, h1 j])]
    simp only [hval i, Bool.false_eq_true, if_false]
  refine ⟨?_, hcol1, ?_, ?_⟩
  · intro i
    exact atCycleColumn_masked n fv fvDT conv P M hcAny (fun j => dt j 0) i
      (by simp [h0 i])
  · intro i
    rw [hcol1 i]
    exact ⟨hsent i, rfl⟩
  · intro k dta dtb c hagree i
    have heq : (fun j => dta j c) = (fun j => dtb j c) := funext hagree
    rw [atTrackTide, atTrackTide, heq]

/-- Concrete prediction service for the C6 witness: returns each time value
as the (non-NaN) predicted tide. -/
def c6Predict (ts : List ℚ) : List (Option ℚ) := ts.map some

/-- Concrete minor-correction service for the C6 witness: returns 1 for
every point. -/
def c6Minor (ts : List ℚ) : List (Option ℚ) := ts.map (fun _ => some 1)

/-- Concrete delta-time matrix for the C6 witness: one point, two cycles,
cycle 0 holding the fill value 9 and cycle 1 the valid time 5. -/
def c6DeltaTime (_ : Fin 1) (c : Fin 2) : ℚ := if c = 0 then 9 else 5

/-- C6 witness: the theorem at the concrete one-point, two-cycle track. -/
theorem c6_witness :
    (∀ i, atTrackTide 1 2 100 9 id c6Predict c6Minor (fun _ => false)
      c6DeltaTime i 0 = (some 100, true)) ∧
    (∀ i, atTrackTide 1 2 100 9 id c6Predict c6Minor (fun _ => false)
      c6DeltaTime i 1
      = (nanAdd ((c6Predict ((List.finRange 1).map
            (fun j => id (c6DeltaTime j 1)))).getD i.val none)
          ((c6Minor ((List.finRange 1).map
            (fun j => id (c6DeltaTime j 1)))).getD i.val none),
        false)) ∧
    (∀ i, (atTrackTide 1 2 100 9 id c6Predict c6Minor (fun _ => false)
      c6DeltaTime i 1).1 ≠ some 100 ∧
      (atTrackTide 1 2 100 9 id c6Predict c6Minor (fun _ => false)
        c6DeltaTime i 1).2 = false) ∧
    (∀ (k : ℕ) (dta dtb : Fin 1 → Fin k → ℚ) (c : Fin k),
      (∀ j, dta j c = dtb j c) →
      ∀ i, atTrackTide 1 k 100 9 id c6Predict c6Minor (fun _ => false) dta i c
        = atTrackTide 1 k 100 9 id c6Predict c6Minor (fun _ => false) dtb i c) :=
  c6_theorem 1 100 9 id c6Predict c6Minor (fun _ => false) c6DeltaTime
    (fun _ => rfl) (by decide) (by decide) (by decide)
    (by
      intro i
      fin_cases i
      have hts : (List.finRange 1).map (fun j => id (c6DeltaTime j 1))
          = [5] := by decide
      rw [hts]
      simp only [c6Predict, c6Minor, List.map_cons, List.map_nil, nanAdd,
        List.getD_cons_zero, Fin.isValue, Fin.val_zero]
      intro hcon
      have hq : (5 : ℚ) + 1 = 100 := Option.some.inj hcon
      norm_num at hq)
